import Mathlib

/-! # CDS queue widget (`modules/cds/queue`)

A shallow embedding of `widget.go` and `display.go`, followed by theorems
about the cache, the cursors and the row formatter.

Conventions of the embedding

* A Go `string` is its byte sequence (`GoString`); `len` is `List.length`,
  `t[a:b]` and `strings.Repeat` are fallible (`Option`, `none` = run-time panic).
* Go `int` / `int64` values are `Int`.  No claim below depends on wrap-around:
  every arithmetic step of the code that is reasoned about stays within
  one unit of a slice length.
* The widget is passed explicitly; a method that mutates its receiver returns the
  new widget.  Calls on `widget.View` (highlighting, scrolling) touch no field of
  `Widget` and are left out.
* Code outside `modules/cds/queue` (the CDS client, `encoding/json`, `time`,
  `sdk.Round`, the host settings) is taken as a parameter (`Client`, `Env`).
-/

namespace cdsqueue

/-- Go string: an immutable sequence of bytes. -/
abbrev GoString := List UInt8

/-- The bytes of a string literal of the source (Go literals are UTF-8). -/
def utf8 (s : String) : GoString := s.toUTF8.data.toList

/-- Slice expression `t[lo:hi]`; panics (`none`) unless `0 ≤ lo ≤ hi ≤ len(t)`. -/
def slice (t : GoString) (lo hi : Int) : Option GoString :=
  if 0 ≤ lo ∧ lo ≤ hi ∧ hi ≤ (t.length : Int) then
    some ((t.take hi.toNat).drop lo.toNat)
  else
    none

namespace strings

/-- Go `strings.Repeat(s, count)`; panics (`none`) on a negative count. -/
def Repeat (s : GoString) (count : Int) : Option GoString :=
  if count < 0 then none else some (List.replicate count.toNat s).flatten

end strings

/-- The `%d` verb of `fmt.Sprintf`: decimal digits, with a leading minus sign. -/
def fmtInt (n : Int) : GoString := utf8 (toString n)

namespace sdk

def StatusWaiting : GoString := utf8 "Waiting"

def StatusBuilding : GoString := utf8 "Building"

structure Parameter where
  Name : GoString
  Value : GoString
deriving DecidableEq, Repr

structure ExecutedJob where
  WorkerName : GoString
  WorkerID : GoString
deriving DecidableEq, Repr

structure Service where
  ID : Int
  Name : GoString
deriving DecidableEq, Repr

/-- The fields of `sdk.WorkflowNodeJobRun` the widget reads.
`Queued` is a time stamp in nanoseconds. -/
structure WorkflowNodeJobRun where
  ID : Int
  Status : GoString
  Parameters : List Parameter
  Job : ExecutedJob
  Queued : Int
  BookedBy : Service
deriving DecidableEq, Repr

/-- The fields of `sdk.EventRunWorkflowJob` the widget reads. -/
structure EventRunWorkflowJob where
  ID : Int
  Status : GoString
deriving DecidableEq, Repr

structure Event where
  EventType : GoString
  Payload : List UInt8
deriving DecidableEq, Repr

structure WebsocketEvent where
  Event : Event
deriving DecidableEq, Repr

end sdk

/-- The method `QueueWorkflowNodeJobRun` of the CDS client: a status to the pair
`(jobs, err)`, with `err = none` for a nil error. -/
abbrev Client := GoString → List sdk.WorkflowNodeJobRun × Option GoString

/-- What the widget consumes from outside its package during a render pass or a
reconciliation. -/
structure Env where
  /-- The call `json.Unmarshal(payload, &e)`: `none` when it returns an error. -/
  Unmarshal : List UInt8 → Option sdk.EventRunWorkflowJob
  /-- The call `time.Since(job.Queued)` made for the row at the given position. -/
  Since : Nat → Int → Int
  /-- The expression `sdk.Round(duration, time.Second).String()`. -/
  RoundString : Int → GoString
  /-- The call `settings.common.SigilStr(len, pos, width)`. -/
  SigilStr : Int → Int → Int → GoString
  /-- Third result of `widget.View.GetRect()`. -/
  width : Int
  /-- The value of `widget.CommonSettings().Title`. -/
  Title : GoString
  /-- The value of `settings.common.Colors.TextTheme.Title`. -/
  TitleColor : GoString

/-- The fields of `Widget` that `widget.go` and `display.go` read or write.
`Idx` is the field of the embedded `view.MultiSourceWidget`. -/
structure Widget where
  filters : List GoString
  Idx : Int
  Selected : Int
  maxItems : Int
  Items : List sdk.WorkflowNodeJobRun
deriving DecidableEq, Repr

/-- One second as a `time.Duration` (nanoseconds). -/
def Second : Int := 1000000000

/-! ## widget.go -/

def SetItemCount (widget : Widget) (items : Int) : Widget :=
  { widget with maxItems := items }

def GetItemCount (widget : Widget) : Int :=
  widget.maxItems

def GetSelected (widget : Widget) : Int :=
  if widget.Selected < 0 then 0 else widget.Selected

def Next (widget : Widget) : Widget :=
  let widget := { widget with Selected := widget.Selected + 1 }
  if widget.Selected ≥ widget.maxItems then { widget with Selected := 0 } else widget

def Prev (widget : Widget) : Widget :=
  let widget := { widget with Selected := widget.Selected - 1 }
  if widget.Selected < 0 then { widget with Selected := widget.maxItems - 1 } else widget

def Unselect (widget : Widget) : Widget :=
  { widget with Selected := -1 }

/-- Returns the label together with the widget, whose `Idx` the call may reset. -/
def currentFilter (widget : Widget) : GoString × Widget :=
  if widget.filters.length = 0 then
    (sdk.StatusWaiting, widget)
  else if h : widget.Idx < 0 ∨ widget.Idx ≥ (widget.filters.length : Int) then
    (sdk.StatusWaiting, { widget with Idx := 0 })
  else
    have hlt : widget.Idx.toNat < widget.filters.length := by omega
    (widget.filters[widget.Idx.toNat], widget)

/-- The statement
`widget.Items, _ = widget.client.QueueWorkflowNodeJobRun(widget.currentFilter())`
of `NewWidget` (line 71), of the event callback (line 92) and of `displayReload`. -/
def fetchItems (client : Client) (widget : Widget) : Widget :=
  let (filter, widget) := currentFilter widget
  let (items, _) := client filter
  { widget with Items := items }

/-- The loop of the event callback (lines 94-99) that builds `newItems`. -/
def newItems (Items : List sdk.WorkflowNodeJobRun) (ID : Int) : List sdk.WorkflowNodeJobRun :=
  Items.foldl (fun acc item => if item.ID ≠ ID then acc ++ [item] else acc) []

/-! ## display.go -/

def pad (t : GoString) (size : Int) : Option GoString :=
  if (t.length : Int) > size then do
    let head ← slice t 0 (size - 3)
    pure (head ++ utf8 "...")
  else do
    let fill ← strings.Repeat (utf8 " ") (size - (t.length : Int))
    pure (t ++ fill)

def getVarsInPbj (key : GoString) : List sdk.Parameter → GoString
  | [] => utf8 ""
  | p :: ps => if p.Name = key then p.Value else getVarsInPbj key ps

/-- The call `fmt.Sprintf("[%s]%s [grey]%s %s %s %s\n", c, row0, row1, row2, row3, row4)`. -/
def sprintfRow (c row0 row1 row2 row3 row4 : GoString) : GoString :=
  utf8 "[" ++ c ++ utf8 "]" ++ row0 ++ utf8 " [grey]" ++ row1 ++ utf8 " " ++ row2 ++ utf8 " "
    ++ row3 ++ utf8 " " ++ row4 ++ utf8 "\n"

def generateQueueJobLine (env : Env) (_id : Int) (parameters : List sdk.Parameter)
    (executedJob : sdk.ExecutedJob) (duration : Int) (bookedBy : sdk.Service)
    (status : GoString) : Option GoString := do
  let prj := getVarsInPbj (utf8 "cds.project") parameters
  let workflow := getVarsInPbj (utf8 "cds.workflow") parameters
  let node := getVarsInPbj (utf8 "cds.node") parameters
  let run := getVarsInPbj (utf8 "cds.run") parameters
  let triggeredBy := getVarsInPbj (utf8 "cds.triggered_by.username") parameters
  let row0 ← pad (env.RoundString duration) 9
  let row2 ← pad run 7
  let row3 ← pad (prj ++ utf8 "/" ++ workflow ++ utf8 "/" ++ node) 40
  let row1 ←
    if status = sdk.StatusBuilding then
      pad (utf8 " " ++ executedJob.WorkerName ++ utf8 "." ++ executedJob.WorkerID ++ utf8 " ") 27
    else if bookedBy.ID ≠ 0 then
      pad (utf8 " " ++ bookedBy.Name ++ utf8 "." ++ fmtInt bookedBy.ID ++ utf8 " ") 27
    else
      pad (utf8 "") 27
  let col5 ← pad triggeredBy 17
  let row4 := utf8 "➤ " ++ col5
  let c :=
    if status = sdk.StatusWaiting then
      if duration > 120 * Second then utf8 "red"
      else if duration > 50 * Second then utf8 "yellow"
      else utf8 "grey"
    else utf8 "grey"
  pure (sprintfRow c row0 row1 row2 row3 row4)

/-- The first loop of `displayQueue` (lines 48-53): the slice `filtered`. -/
def filtered (Items : List sdk.WorkflowNodeJobRun) (filter : GoString) :
    List sdk.WorkflowNodeJobRun :=
  Items.foldl (fun acc item => if item.Status = filter then acc ++ [item] else acc) []

/-- The second loop of `displayQueue` (lines 62-65), entered at position `idx` with
the text accumulated so far. -/
def displayQueueRows (env : Env) :
    Nat → List sdk.WorkflowNodeJobRun → GoString → Option GoString
  | _, [], content => some content
  | idx, job :: rest, content => do
    let line ← generateQueueJobLine env job.ID job.Parameters job.Job
      (env.Since idx job.Queued) job.BookedBy job.Status
    displayQueueRows env (idx + 1) rest
      (content ++ (utf8 "[grey][\"" ++ fmtInt idx ++ utf8 "\"]" ++ line))

def displayQueue (env : Env) (widget : Widget) (filter : GoString) :
    Option (GoString × Widget) :=
  let filtered := filtered widget.Items filter
  let widget := SetItemCount widget filtered.length
  if filtered.length = 0 then
    some (utf8 " [grey]none[white]\n", widget)
  else do
    let content ← displayQueueRows env 0 filtered (utf8 "")
    pure (content, widget)

def title (env : Env) (widget : Widget) (filter : GoString) : GoString :=
  utf8 "[" ++ env.TitleColor ++ utf8 "]" ++ fmtInt widget.maxItems ++ utf8 " - " ++ filter
    ++ utf8 "[white]"

def content (env : Env) (widget : Widget) : Option ((GoString × GoString × Bool) × Widget) := do
  let (filter, widget) := currentFilter widget
  let str := env.SigilStr widget.filters.length widget.Idx env.width ++ utf8 "\n"
  let (body, widget) ← displayQueue env widget filter
  let str := str ++ body
  let title := env.Title ++ utf8 " - " ++ title env widget filter
  pure ((title, str, false), widget)

/-- A render pass: `widget.TextWidget.Redraw(widget.content)` calls `content` and
hands its three results to the view; the widget keeps what `content` wrote. -/
def display (env : Env) (widget : Widget) : Option Widget :=
  (content env widget).map Prod.snd

def Refresh (env : Env) (widget : Widget) : Option Widget :=
  display env widget

def displayReload (env : Env) (client : Client) (widget : Widget) : Option Widget :=
  display env (fetchItems client widget)

/-- The function handed to `debounced` for one received event (lines 81-104). -/
def onEvent (env : Env) (client : Client) (widget : Widget) (evt : sdk.WebsocketEvent) :
    Option Widget :=
  if evt.Event.EventType ≠ utf8 "sdk.EventRunWorkflowJob" then
    some widget
  else
    match env.Unmarshal evt.Event.Payload with
    | none => some widget
    | some e =>
      let widget :=
        if e.Status = sdk.StatusWaiting ∨ e.Status = sdk.StatusBuilding then
          fetchItems client widget
        else
          { widget with Items := newItems widget.Items e.ID }
      Refresh env widget

/-- The widget `NewWidget` returns: the zero value, `Unselect`, the two filters, then
the first fetch. -/
def NewWidget (client : Client) : Widget :=
  let widget : Widget := { filters := [], Idx := 0, Selected := 0, maxItems := 0, Items := [] }
  let widget := Unselect widget
  let widget := { widget with filters := [sdk.StatusWaiting, sdk.StatusBuilding] }
  fetchItems client widget

/-! ## widget.go, continued -/

/-- Index expression `xs[i]` on a slice; panics (`none`) unless `0 ≤ i < len(xs)`. -/
def index {α : Type} (xs : List α) (i : Int) : Option α :=
  if 0 ≤ i then xs[i.toNat]? else none

/-- The record bound to `job` in `openWorkflow` (line 191).  `currentSelection` is the
result of `widget.View.GetHighlights()`.  The outer `none` is a run-time panic, `some none`
means the guard of line 190 was false and no record was read. -/
def openWorkflowJob (currentSelection : List GoString) (widget : Widget) :
    Option (Option sdk.WorkflowNodeJobRun) :=
  if widget.Selected ≥ 0 then do
    let first ← index currentSelection 0
    if first ≠ utf8 "" then do
      let job ← index widget.Items widget.Selected
      pure (some job)
    else
      pure none
  else
    pure none

/-- The method `openWorkflow`; `uiURL` is `widget.settings.uiURL`.  The result is the URL
handed to `utils.OpenFile`, if any. -/
def openWorkflow (uiURL : GoString) (currentSelection : List GoString) (widget : Widget) :
    Option (Option GoString) := do
  match ← openWorkflowJob currentSelection widget with
  | none => pure none
  | some job =>
    let prj := getVarsInPbj (utf8 "cds.project") job.Parameters
    let workflow := getVarsInPbj (utf8 "cds.workflow") job.Parameters
    let runNumber := getVarsInPbj (utf8 "cds.run.number") job.Parameters
    pure (some (uiURL ++ utf8 "/project/" ++ prj ++ utf8 "/workflow/" ++ workflow
      ++ utf8 "/run/" ++ runNumber))

/-- The text of a row as displayed, that is the result of `sprintfRow` without its two
colour tags: five columns, a space after each of the first four, the arrow and a space
before the fifth, a newline at the end. -/
def rowText (col1 col2 col3 col4 col5 : GoString) : GoString :=
  col1 ++ utf8 " " ++ col2 ++ utf8 " " ++ col3 ++ utf8 " " ++ col4 ++ utf8 " "
    ++ (utf8 "➤ " ++ col5) ++ utf8 "\n"

/-! ## Sequences of operations -/

/-- The two ways the code writes `widget.Items`: the fetch-and-assign statement
(`replaceAll`) and the removal loop of the event callback (`removeByID`). -/
inductive CacheOp where
  | replaceAll (client : Client)
  | removeByID (ID : Int)

def CacheOp.apply : CacheOp → Widget → Widget
  | .replaceAll client, widget => fetchItems client widget
  | .removeByID ID, widget => { widget with Items := newItems widget.Items ID }

def runCache (ops : List CacheOp) (widget : Widget) : Widget :=
  ops.foldl (fun w op => op.apply w) widget

/-- Keyboard navigation and render passes. -/
inductive NavOp where
  | next
  | prev
  | unselect
  | render
deriving DecidableEq, Repr

def NavOp.apply (env : Env) : NavOp → Widget → Option Widget
  | .next, widget => some (Next widget)
  | .prev, widget => some (Prev widget)
  | .unselect, widget => some (Unselect widget)
  | .render, widget => display env widget

def runNav (env : Env) : List NavOp → Widget → Option Widget
  | [], widget => some widget
  | op :: ops, widget => (op.apply env widget).bind (runNav env ops)

/-- What holds of every state reached from `NewWidget` by navigation and render passes;
the cache is `items` throughout. -/
def NavInv (items : List sdk.WorkflowNodeJobRun) (widget : Widget) : Prop :=
  widget.filters = [sdk.StatusWaiting, sdk.StatusBuilding] ∧ widget.Idx = 0
  ∧ widget.Items = items
  ∧ (widget.maxItems = 0 ∨ widget.maxItems = ((filtered items sdk.StatusWaiting).length : Int))
  ∧ -1 ≤ widget.Selected
  ∧ (widget.Selected ≤ 0 ∨ widget.Selected < ((filtered items sdk.StatusWaiting).length : Int))

/-! ## Sample inputs -/

def sampleJob (ID : Int) (status : GoString) : sdk.WorkflowNodeJobRun :=
  { ID := ID, Status := status,
    Parameters := [⟨utf8 "cds.project", utf8 "PRJ"⟩, ⟨utf8 "cds.run", utf8 "12"⟩],
    Job := ⟨utf8 "worker", utf8 "w1"⟩, Queued := 0, BookedBy := ⟨0, utf8 ""⟩ }

/-- A toy environment: a payload is the job id followed by one status byte
(0 Waiting, 1 Building, 2 Success). -/
def sampleEnv : Env :=
  { Unmarshal := fun payload =>
      match payload with
      | [ID, 0] => some ⟨ID.toNat, sdk.StatusWaiting⟩
      | [ID, 1] => some ⟨ID.toNat, sdk.StatusBuilding⟩
      | [ID, 2] => some ⟨ID.toNat, utf8 "Success"⟩
      | _ => none,
    Since := fun _ queued => 130 * Second - queued,
    RoundString := fun d => fmtInt (d / Second) ++ utf8 "s",
    SigilStr := fun _ _ _ => utf8 "*",
    width := 80,
    Title := utf8 "CDS Queue",
    TitleColor := utf8 "green" }

def sampleWidget : Widget :=
  { filters := [sdk.StatusWaiting, sdk.StatusBuilding], Idx := 0, Selected := -1, maxItems := 0,
    Items := [sampleJob 1 sdk.StatusWaiting, sampleJob 2 sdk.StatusBuilding,
      sampleJob 3 sdk.StatusWaiting] }

/-- The sample widget with the single filter `Building` and the cursor past the list. -/
def buildingOnlyWidget : Widget :=
  { sampleWidget with filters := [sdk.StatusBuilding], Idx := 5 }

/-- A client whose every call fails: no jobs and a non-nil error. -/
def failingClient : Client := fun _ => ([], some (utf8 "connection refused"))

/-- A client that answers with an empty queue. -/
def emptyClient : Client := fun _ => ([], none)

/-- A client whose answer lists the same identifier twice. -/
def duplicateClient : Client :=
  fun _ => ([sampleJob 1 sdk.StatusWaiting, sampleJob 1 sdk.StatusBuilding], none)

/-- A well-behaved client. -/
def sampleClient : Client :=
  fun _ => ([sampleJob 1 sdk.StatusWaiting, sampleJob 2 sdk.StatusBuilding], none)

def jobRunEvent (payload : List UInt8) : sdk.WebsocketEvent :=
  { Event := { EventType := utf8 "sdk.EventRunWorkflowJob", Payload := payload } }

/-- A job of project `PRJ`, workflow `build`, with the given run number. -/
def runJob (ID : Int) (status runNumber : GoString) : sdk.WorkflowNodeJobRun :=
  { ID := ID, Status := status,
    Parameters := [⟨utf8 "cds.project", utf8 "PRJ"⟩, ⟨utf8 "cds.workflow", utf8 "build"⟩,
      ⟨utf8 "cds.run.number", runNumber⟩],
    Job := ⟨utf8 "worker", utf8 "w1"⟩, Queued := 0, BookedBy := ⟨0, utf8 ""⟩ }

/-- A client whose answer holds a Building job before a Waiting one. -/
def mixedClient : Client :=
  fun _ => ([runJob 1 sdk.StatusBuilding (utf8 "7"), runJob 2 sdk.StatusWaiting (utf8 "8")], none)

/-- A client whose answer holds three Waiting jobs. -/
def threeWaitingClient : Client :=
  fun _ => ([runJob 1 sdk.StatusWaiting (utf8 "7"), runJob 2 sdk.StatusWaiting (utf8 "8"),
    runJob 3 sdk.StatusWaiting (utf8 "9")], none)

/-! ## Loops as list operations -/

theorem foldl_append_if {α : Type} (p : α → Prop) [DecidablePred p] (l init : List α) :
    l.foldl (fun acc x => if p x then acc ++ [x] else acc) init
      = init ++ l.filter (fun x => decide (p x)) := by
  induction l generalizing init with
  | nil => simp
  | cons x xs ih =>
    by_cases hx : p x
    · simp [List.foldl_cons, ih, hx, List.filter_cons]
    · simp [List.foldl_cons, ih, hx, List.filter_cons]

theorem filtered_eq_filter (Items : List sdk.WorkflowNodeJobRun) (filter : GoString) :
    filtered Items filter = Items.filter (fun job => decide (job.Status = filter)) := by
  unfold filtered
  rw [foldl_append_if (fun item : sdk.WorkflowNodeJobRun => item.Status = filter)]
  simp

theorem newItems_eq_filter (Items : List sdk.WorkflowNodeJobRun) (ID : Int) :
    newItems Items ID = Items.filter (fun item => decide (item.ID ≠ ID)) := by
  unfold newItems
  rw [foldl_append_if (fun item : sdk.WorkflowNodeJobRun => item.ID ≠ ID)]
  simp

/-! ## The formatter never panics -/

theorem utf8_dots : utf8 "..." = [46, 46, 46] := by decide
theorem utf8_space : utf8 " " = [32] := by decide

theorem slice_zero (t : GoString) (hi : Int) (h0 : 0 ≤ hi) (h1 : hi ≤ (t.length : Int)) :
    slice t 0 hi = some (t.take hi.toNat) := by
  simp [slice, h0, h1]

theorem repeat_space (count : Int) (h : 0 ≤ count) :
    strings.Repeat (utf8 " ") count = some (List.replicate count.toNat (32 : UInt8)) := by
  have hc : ¬ count < 0 := by omega
  simp only [strings.Repeat, hc, if_false, utf8_space]
  congr 1
  induction count.toNat with
  | zero => rfl
  | succ n ih => simp [List.replicate_succ, ih]

/-- The value `pad` returns for a width of at least three. -/
theorem pad_eq (t : GoString) (size : Int) (h : 3 ≤ size) :
    pad t size = some (if (t.length : Int) > size then t.take (size - 3).toNat ++ utf8 "..."
      else t ++ List.replicate (size - (t.length : Int)).toNat (32 : UInt8)) := by
  unfold pad
  by_cases hlen : (t.length : Int) > size
  · rw [if_pos hlen, if_pos hlen, slice_zero t (size - 3) (by omega) (by omega)]
    rfl
  · rw [if_neg hlen, if_neg hlen, repeat_space _ (by omega)]
    rfl

theorem pad_length (t r : GoString) (size : Int) (h : 3 ≤ size) (hr : pad t size = some r) :
    (r.length : Int) = size := by
  rw [pad_eq t size h] at hr
  injection hr with hr
  subst hr
  by_cases hlen : (t.length : Int) > size
  · rw [if_pos hlen, utf8_dots]
    simp
    omega
  · rw [if_neg hlen]
    simp
    omega

theorem pad_some (t : GoString) (size : Int) (h : 3 ≤ size) :
    ∃ r, pad t size = some r ∧ (r.length : Int) = size := by
  refine ⟨_, pad_eq t size h, ?_⟩
  exact pad_length t _ size h (pad_eq t size h)

/-- The colour name chosen at lines 94-101. -/
theorem generateQueueJobLine_eq (env : Env) (id : Int) (parameters : List sdk.Parameter)
    (executedJob : sdk.ExecutedJob) (duration : Int) (bookedBy : sdk.Service)
    (status : GoString) :
    ∃ c row0 row1 row2 row3 col5,
      generateQueueJobLine env id parameters executedJob duration bookedBy status
        = some (sprintfRow c row0 row1 row2 row3 (utf8 "➤ " ++ col5))
      ∧ (c = utf8 "grey" ∨ c = utf8 "red" ∨ c = utf8 "yellow")
      ∧ pad (env.RoundString duration) 9 = some row0
      ∧ pad (if status = sdk.StatusBuilding then
              utf8 " " ++ executedJob.WorkerName ++ utf8 "." ++ executedJob.WorkerID ++ utf8 " "
            else if bookedBy.ID ≠ 0 then
              utf8 " " ++ bookedBy.Name ++ utf8 "." ++ fmtInt bookedBy.ID ++ utf8 " "
            else utf8 "") 27 = some row1
      ∧ pad (getVarsInPbj (utf8 "cds.run") parameters) 7 = some row2
      ∧ pad (getVarsInPbj (utf8 "cds.project") parameters ++ utf8 "/"
              ++ getVarsInPbj (utf8 "cds.workflow") parameters ++ utf8 "/"
              ++ getVarsInPbj (utf8 "cds.node") parameters) 40 = some row3
      ∧ pad (getVarsInPbj (utf8 "cds.triggered_by.username") parameters) 17 = some col5 := by
  obtain ⟨row0, h0, -⟩ := pad_some (env.RoundString duration) 9 (by decide)
  obtain ⟨row2, h2, -⟩ := pad_some (getVarsInPbj (utf8 "cds.run") parameters) 7 (by decide)
  obtain ⟨row3, h3, -⟩ := pad_some (getVarsInPbj (utf8 "cds.project") parameters ++ utf8 "/"
    ++ getVarsInPbj (utf8 "cds.workflow") parameters ++ utf8 "/"
    ++ getVarsInPbj (utf8 "cds.node") parameters) 40 (by decide)
  obtain ⟨col5, h5, -⟩ :=
    pad_some (getVarsInPbj (utf8 "cds.triggered_by.username") parameters) 17 (by decide)
  obtain ⟨row1, h1, -⟩ := pad_some (if status = sdk.StatusBuilding then
      utf8 " " ++ executedJob.WorkerName ++ utf8 "." ++ executedJob.WorkerID ++ utf8 " "
    else if bookedBy.ID ≠ 0 then
      utf8 " " ++ bookedBy.Name ++ utf8 "." ++ fmtInt bookedBy.ID ++ utf8 " "
    else utf8 "") 27 (by decide)
  refine ⟨(if status = sdk.StatusWaiting then
      if duration > 120 * Second then utf8 "red"
      else if duration > 50 * Second then utf8 "yellow"
      else utf8 "grey"
    else utf8 "grey"), row0, row1, row2, row3, col5, ?_, ?_, h0, h1, h2, h3, h5⟩
  · unfold generateQueueJobLine
    simp only [h0, h2, h3, h5, Option.bind_eq_bind, Option.some_bind, Option.pure_def]
    split_ifs at h1 with hb hk
    · simp only [hb, if_true, h1, Option.some_bind]
    · rw [if_neg hb, if_pos hk, h1]
      rfl
    · rw [if_neg hb, if_neg hk, h1]
      rfl
  · split_ifs <;> simp

/-! ## Render passes return and leave the cache alone -/

theorem displayQueueRows_some (env : Env) (jobs : List sdk.WorkflowNodeJobRun) :
    ∀ (idx : Nat) (content : GoString), ∃ out, displayQueueRows env idx jobs content = some out := by
  induction jobs with
  | nil => intro idx content; exact ⟨content, rfl⟩
  | cons job rest ih =>
    intro idx content
    obtain ⟨c, row0, row1, row2, row3, col5, hline, -⟩ :=
      generateQueueJobLine_eq env job.ID job.Parameters job.Job (env.Since idx job.Queued)
        job.BookedBy job.Status
    obtain ⟨out, hout⟩ := ih (idx + 1)
      (content ++ (utf8 "[grey][\"" ++ fmtInt idx ++ utf8 "\"]"
        ++ sprintfRow c row0 row1 row2 row3 (utf8 "➤ " ++ col5)))
    refine ⟨out, ?_⟩
    rw [displayQueueRows, hline]
    exact hout

theorem displayQueue_some (env : Env) (widget : Widget) (filter : GoString) :
    ∃ body, displayQueue env widget filter
      = some (body, SetItemCount widget ((filtered widget.Items filter).length : Int)) := by
  unfold displayQueue
  by_cases hlen : (filtered widget.Items filter).length = 0
  · exact ⟨utf8 " [grey]none[white]\n", by simp only [hlen, if_true]⟩
  · obtain ⟨out, hout⟩ := displayQueueRows_some env (filtered widget.Items filter) 0 (utf8 "")
    refine ⟨out, ?_⟩
    simp only [hlen, if_false, hout]
    rfl

theorem currentFilter_Items (widget : Widget) : (currentFilter widget).2.Items = widget.Items := by
  unfold currentFilter
  split_ifs <;> rfl

theorem currentFilter_filters (widget : Widget) :
    (currentFilter widget).2.filters = widget.filters := by
  unfold currentFilter
  split_ifs <;> rfl

theorem currentFilter_Selected (widget : Widget) :
    (currentFilter widget).2.Selected = widget.Selected := by
  unfold currentFilter
  split_ifs <;> rfl

theorem currentFilter_maxItems (widget : Widget) :
    (currentFilter widget).2.maxItems = widget.maxItems := by
  unfold currentFilter
  split_ifs <;> rfl

/-- A render pass returns; it writes `maxItems` (and possibly `Idx`) and nothing else. -/
theorem display_eq (env : Env) (widget : Widget) :
    display env widget = some (SetItemCount (currentFilter widget).2
      ((filtered widget.Items (currentFilter widget).1).length : Int)) := by
  obtain ⟨body, hbody⟩ := displayQueue_some env (currentFilter widget).2 (currentFilter widget).1
  rw [currentFilter_Items] at hbody
  unfold display content
  simp only [Option.bind_eq_bind, Option.pure_def]
  rw [hbody]
  rfl

theorem fetchItems_Items (client : Client) (widget : Widget) :
    (fetchItems client widget).Items = (client (currentFilter widget).1).1 := rfl

/-! ## The event callback, branch by branch -/

theorem onEvent_live (env : Env) (client : Client) (widget : Widget)
    (evt : sdk.WebsocketEvent) (e : sdk.EventRunWorkflowJob)
    (htype : evt.Event.EventType = utf8 "sdk.EventRunWorkflowJob")
    (hdec : env.Unmarshal evt.Event.Payload = some e)
    (hlive : e.Status = sdk.StatusWaiting ∨ e.Status = sdk.StatusBuilding) :
    onEvent env client widget evt = display env (fetchItems client widget) := by
  unfold onEvent
  rw [if_neg (by simpa using htype), hdec]
  simp only [hlive, if_true, Refresh]

theorem onEvent_terminal (env : Env) (client : Client) (widget : Widget)
    (evt : sdk.WebsocketEvent) (e : sdk.EventRunWorkflowJob)
    (htype : evt.Event.EventType = utf8 "sdk.EventRunWorkflowJob")
    (hdec : env.Unmarshal evt.Event.Payload = some e)
    (hterminal : e.Status ≠ sdk.StatusWaiting ∧ e.Status ≠ sdk.StatusBuilding) :
    onEvent env client widget evt
      = display env { widget with Items := newItems widget.Items e.ID } := by
  unfold onEvent
  rw [if_neg (by simpa using htype), hdec]
  simp only [hterminal.1, hterminal.2, or_self, if_false, Refresh]

/-- The cache after a render pass is the cache before it. -/
theorem display_Items (env : Env) (widget : Widget) :
    ∃ widget', display env widget = some widget' ∧ widget'.Items = widget.Items :=
  ⟨_, display_eq env widget, currentFilter_Items widget⟩

/-! ## Claims -/

/-- C1: the filtered view that `displayQueue` computes for a label is exactly the
records of `Items` whose `Status` equals the label, in their original order: every
element has that status, no matching record is left out, the view is a subsequence of
`Items`; the call returns, records the size of the view as item count and leaves
`Items` as it was. -/
theorem displayQueue_filtered_view (env : Env) (widget : Widget) (filter : GoString) :
    filtered widget.Items filter = widget.Items.filter (fun job => decide (job.Status = filter))
    ∧ (∀ job ∈ filtered widget.Items filter, job.Status = filter)
    ∧ (∀ job ∈ widget.Items, job.Status = filter → job ∈ filtered widget.Items filter)
    ∧ List.Sublist (filtered widget.Items filter) widget.Items
    ∧ ∃ body widget', displayQueue env widget filter = some (body, widget')
        ∧ widget'.Items = widget.Items
        ∧ GetItemCount widget' = ((filtered widget.Items filter).length : Int) := by
  refine ⟨filtered_eq_filter _ _, ?_, ?_, ?_, ?_⟩
  · intro job hjob
    rw [filtered_eq_filter] at hjob
    simpa using (List.mem_filter.mp hjob).2
  · intro job hjob hstatus
    rw [filtered_eq_filter]
    exact List.mem_filter.mpr ⟨hjob, by simpa using hstatus⟩
  · rw [filtered_eq_filter]
    exact List.filter_sublist _
  · obtain ⟨body, hbody⟩ := displayQueue_some env widget filter
    exact ⟨body, _, hbody, rfl, rfl⟩

/-- C2 (counterexample): with one job cached and a client whose fetch returns an error,
a display reload and the reconciliation of a Waiting event both return, and both leave
the cache empty instead of keeping the cached job. -/
theorem fetch_error_loses_cache :
    (failingClient sdk.StatusWaiting).2 ≠ none
    ∧ sampleWidget.Items ≠ []
    ∧ (displayReload sampleEnv failingClient sampleWidget).map (fun w => w.Items) = some []
    ∧ (onEvent sampleEnv failingClient sampleWidget (jobRunEvent [1, 0])).map (fun w => w.Items)
        = some [] := by
  decide

/-- C2 (amended): when the fetch of live jobs returns an error, the error is dropped and
the cache becomes the job list that came back with it, whatever the cache held before:
at bootstrap, on a display reload and on the reconciliation of a Waiting or Building
event. -/
theorem fetch_error_overwrites_cache (env : Env) (client : Client) (widget : Widget)
    (evt : sdk.WebsocketEvent) (e : sdk.EventRunWorkflowJob)
    (herr : ∀ status, (client status).2 ≠ none)
    (htype : evt.Event.EventType = utf8 "sdk.EventRunWorkflowJob")
    (hdec : env.Unmarshal evt.Event.Payload = some e)
    (hlive : e.Status = sdk.StatusWaiting ∨ e.Status = sdk.StatusBuilding) :
    (NewWidget client).Items = (client sdk.StatusWaiting).1
    ∧ (fetchItems client widget).Items = (client (currentFilter widget).1).1
    ∧ (∃ widget', displayReload env client widget = some widget'
        ∧ widget'.Items = (client (currentFilter widget).1).1)
    ∧ (∃ widget', onEvent env client widget evt = some widget'
        ∧ widget'.Items = (client (currentFilter widget).1).1) := by
  have _ := herr
  refine ⟨rfl, rfl, ?_, ?_⟩
  · obtain ⟨w, hw, hItems⟩ := display_Items env (fetchItems client widget)
    exact ⟨w, hw, hItems⟩
  · obtain ⟨w, hw, hItems⟩ := display_Items env (fetchItems client widget)
    exact ⟨w, (onEvent_live env client widget evt e htype hdec hlive).trans hw, hItems⟩

theorem fetch_error_overwrites_cache_witness :
    (∀ status, (failingClient status).2 ≠ none)
    ∧ (NewWidget failingClient).Items = (failingClient sdk.StatusWaiting).1
    ∧ (fetchItems failingClient sampleWidget).Items
        = (failingClient (currentFilter sampleWidget).1).1
    ∧ (∃ widget', displayReload sampleEnv failingClient sampleWidget = some widget'
        ∧ widget'.Items = (failingClient (currentFilter sampleWidget).1).1)
    ∧ (∃ widget', onEvent sampleEnv failingClient sampleWidget (jobRunEvent [1, 0])
          = some widget'
        ∧ widget'.Items = (failingClient (currentFilter sampleWidget).1).1) :=
  ⟨fun _ h => Option.noConfusion h,
    fetch_error_overwrites_cache sampleEnv failingClient sampleWidget (jobRunEvent [1, 0])
      ⟨1, sdk.StatusWaiting⟩ (fun _ h => Option.noConfusion h) (by decide) (by decide)
      (by decide)⟩

/-- C3: for a terminal-status event with job id `k` (declared type and payload accepted),
the callback returns and the cache becomes `Items` without the records of id `k`, the
others in their original order; no record of id `k` remains; if none had id `k` the
cache is unchanged; and a second application of the same event leaves the cache as the
first application left it. -/
theorem terminal_event_removes_job (env : Env) (client : Client) (widget : Widget)
    (evt : sdk.WebsocketEvent) (e : sdk.EventRunWorkflowJob)
    (htype : evt.Event.EventType = utf8 "sdk.EventRunWorkflowJob")
    (hdec : env.Unmarshal evt.Event.Payload = some e)
    (hterminal : e.Status ≠ sdk.StatusWaiting ∧ e.Status ≠ sdk.StatusBuilding) :
    ∃ widget', onEvent env client widget evt = some widget'
      ∧ widget'.Items = widget.Items.filter (fun item => decide (item.ID ≠ e.ID))
      ∧ (∀ item ∈ widget'.Items, item.ID ≠ e.ID)
      ∧ ((∀ item ∈ widget.Items, item.ID ≠ e.ID) → widget'.Items = widget.Items)
      ∧ ∃ widget'', onEvent env client widget' evt = some widget''
          ∧ widget''.Items = widget'.Items := by
  have hstep : ∀ w : Widget, ∃ w', onEvent env client w evt = some w'
      ∧ w'.Items = w.Items.filter (fun item => decide (item.ID ≠ e.ID)) := by
    intro w
    obtain ⟨w', hw', hItems⟩ := display_Items env { w with Items := newItems w.Items e.ID }
    exact ⟨w', (onEvent_terminal env client w evt e htype hdec hterminal).trans hw',
      hItems.trans (newItems_eq_filter w.Items e.ID)⟩
  obtain ⟨w1, h1, hItems1⟩ := hstep widget
  obtain ⟨w2, h2, hItems2⟩ := hstep w1
  refine ⟨w1, h1, hItems1, ?_, ?_, w2, h2, ?_⟩
  · intro item hitem
    rw [hItems1] at hitem
    simpa using (List.mem_filter.mp hitem).2
  · intro hnone
    rw [hItems1]
    exact List.filter_eq_self.mpr (fun item hitem => by simpa using hnone item hitem)
  · rw [hItems2, hItems1, List.filter_filter]
    simp

theorem terminal_event_removes_job_witness :
    ∃ widget', onEvent sampleEnv sampleClient sampleWidget (jobRunEvent [2, 2]) = some widget'
      ∧ widget'.Items = sampleWidget.Items.filter (fun item => decide (item.ID ≠ 2))
      ∧ (∀ item ∈ widget'.Items, item.ID ≠ 2)
      ∧ ((∀ item ∈ sampleWidget.Items, item.ID ≠ 2) → widget'.Items = sampleWidget.Items)
      ∧ ∃ widget'', onEvent sampleEnv sampleClient widget' (jobRunEvent [2, 2]) = some widget''
          ∧ widget''.Items = widget'.Items :=
  terminal_event_removes_job sampleEnv sampleClient sampleWidget (jobRunEvent [2, 2])
    ⟨2, utf8 "Success"⟩ (by decide) (by decide) (by decide)

theorem nodup_ids_filter (Items : List sdk.WorkflowNodeJobRun) (p : sdk.WorkflowNodeJobRun → Bool)
    (h : (Items.map (fun item => item.ID)).Nodup) :
    ((Items.filter p).map (fun item => item.ID)).Nodup :=
  List.Nodup.sublist ((List.filter_sublist Items).map _) h

/-- C4 (counterexample): one `replaceAll` on the empty cache, with a fetched list that
names identifier 1 twice, leaves two records with the same identifier in the cache. -/
theorem replaceAll_keeps_duplicates :
    (NewWidget emptyClient).Items = []
    ∧ ¬ ((runCache [CacheOp.replaceAll duplicateClient] (NewWidget emptyClient)).Items.map
          (fun item => item.ID)).Nodup := by
  decide

/-- C4 (amended): starting from the empty cache, after every sequence of `replaceAll` and
`removeByID` operations in which each fetched list has pairwise distinct identifiers,
no two records of the cache have the same identifier, at every point of
the sequence. -/
theorem cache_ids_distinct (ops : List CacheOp) (widget : Widget)
    (hempty : widget.Items = [])
    (hfetched : ∀ client, CacheOp.replaceAll client ∈ ops →
      ∀ status, ((client status).1.map (fun item => item.ID)).Nodup)
    (n : Nat) :
    ((runCache (ops.take n) widget).Items.map (fun item => item.ID)).Nodup := by
  have key : ∀ (l : List CacheOp) (w : Widget),
      (w.Items.map (fun item => item.ID)).Nodup →
      (∀ client, CacheOp.replaceAll client ∈ l →
        ∀ status, ((client status).1.map (fun item => item.ID)).Nodup) →
      ((runCache l w).Items.map (fun item => item.ID)).Nodup := by
    intro l
    induction l with
    | nil => intro w hw _; exact hw
    | cons op rest ih =>
      intro w hw hl
      have hrest := fun client h => hl client (List.mem_cons_of_mem _ h)
      show ((runCache rest (op.apply w)).Items.map (fun item => item.ID)).Nodup
      apply ih _ _ hrest
      cases op with
      | replaceAll client =>
        exact hl client (List.mem_cons_self _ _) _
      | removeByID ID =>
        show ((newItems w.Items ID).map (fun item => item.ID)).Nodup
        rw [newItems_eq_filter]
        exact nodup_ids_filter _ _ hw
  apply key
  · rw [hempty]
    exact List.nodup_nil
  · intro client hmem
    exact hfetched client (List.mem_of_mem_take hmem)

theorem cache_ids_distinct_witness :
    ((runCache ([CacheOp.replaceAll sampleClient, CacheOp.removeByID 2,
        CacheOp.replaceAll sampleClient].take 2) (NewWidget emptyClient)).Items.map
          (fun item => item.ID)).Nodup :=
  cache_ids_distinct [CacheOp.replaceAll sampleClient, CacheOp.removeByID 2,
      CacheOp.replaceAll sampleClient] (NewWidget emptyClient) rfl
    (fun client hmem status => by
      have hc : client = sampleClient := by
        simp only [List.mem_cons, CacheOp.replaceAll.injEq, List.mem_singleton, reduceCtorEq,
          false_or, or_false, or_self, List.not_mem_nil] at hmem
        exact hmem
      subst hc
      simp [sampleClient, sampleJob]) 2

/-- C5 (counterexample): with the one-label filter list `[Building]` and index 5,
`currentFilter` returns `Waiting`, which is not the label at index 0. -/
theorem currentFilter_not_first_label :
    buildingOnlyWidget.filters ≠ []
    ∧ buildingOnlyWidget.Idx ≥ (buildingOnlyWidget.filters.length : Int)
    ∧ buildingOnlyWidget.filters[0]? = some sdk.StatusBuilding
    ∧ (currentFilter buildingOnlyWidget).1 = sdk.StatusWaiting
    ∧ some (currentFilter buildingOnlyWidget).1 ≠ buildingOnlyWidget.filters[0]? := by
  decide

/-- C5 (amended): for every non-empty filter list and every out-of-range index,
`currentFilter` returns the default label `Waiting` and leaves the cursor index at 0
(and nothing else changed); the returned label is the one at index 0 whenever the list
starts with `Waiting`, as the list `[Waiting, Building]` of `NewWidget` does. -/
theorem currentFilter_out_of_range (widget : Widget)
    (hne : widget.filters ≠ [])
    (hout : widget.Idx < 0 ∨ widget.Idx ≥ (widget.filters.length : Int)) :
    (currentFilter widget).1 = sdk.StatusWaiting
    ∧ (currentFilter widget).2 = { widget with Idx := 0 }
    ∧ (widget.filters[0]? = some sdk.StatusWaiting →
        widget.filters[0]? = some (currentFilter widget).1)
    ∧ (∀ client : Client, (NewWidget client).filters[0]? = some sdk.StatusWaiting) := by
  have hlen : ¬ widget.filters.length = 0 := by
    intro h
    exact hne (List.length_eq_zero.mp h)
  have h1 : currentFilter widget = (sdk.StatusWaiting, { widget with Idx := 0 }) := by
    unfold currentFilter
    rw [if_neg hlen, dif_pos hout]
  refine ⟨by rw [h1], by rw [h1], ?_, fun _ => rfl⟩
  intro h
  rw [h1]
  exact h

theorem currentFilter_out_of_range_witness :
    (currentFilter buildingOnlyWidget).1 = sdk.StatusWaiting
    ∧ (currentFilter buildingOnlyWidget).2 = { buildingOnlyWidget with Idx := 0 }
    ∧ (buildingOnlyWidget.filters[0]? = some sdk.StatusWaiting →
        buildingOnlyWidget.filters[0]? = some (currentFilter buildingOnlyWidget).1)
    ∧ (∀ client : Client, (NewWidget client).filters[0]? = some sdk.StatusWaiting) :=
  currentFilter_out_of_range buildingOnlyWidget (by decide) (by decide)

/-- C6 (failing input): a widget built over an empty queue is unselected; after a render
pass (item count 0) and one `Next`, row 0 is selected although the item count is 0, so
`0 ≤ Selected < itemCount` fails. -/
theorem next_on_empty_queue_selects_row_zero :
    (NewWidget emptyClient).Selected = -1
    ∧ (runNav sampleEnv [NavOp.render, NavOp.next] (NewWidget emptyClient)).map
        (fun w => (w.Selected, GetItemCount w, w.Items.length)) = some (0, 0, 0)
    ∧ (runNav sampleEnv [NavOp.render, NavOp.next] (NewWidget emptyClient)).map
        (fun w => decide (0 ≤ w.Selected ∧ ¬ w.Selected < GetItemCount w)) = some true := by
  decide

/-- C7: with item count `N ≥ 1` and selection `s` in `[0, N)`, `Next` moves the selection
to `s + 1` modulo `N` and `Prev` to `s - 1` modulo `N`: from `N - 1` `Next` yields 0,
from 0 `Prev` yields `N - 1`, otherwise they yield `s + 1` and `s - 1`; neither touches
the item count or the cache. -/
theorem next_prev_wrap (widget : Widget) (N s : Int) (hN : 1 ≤ N)
    (hcount : GetItemCount widget = N) (hsel : widget.Selected = s) (hs : 0 ≤ s ∧ s < N) :
    (Next widget).Selected = (s + 1) % N
    ∧ (Prev widget).Selected = (s - 1) % N
    ∧ (s = N - 1 → (Next widget).Selected = 0)
    ∧ (s = 0 → (Prev widget).Selected = N - 1)
    ∧ (s < N - 1 → (Next widget).Selected = s + 1)
    ∧ (0 < s → (Prev widget).Selected = s - 1)
    ∧ GetItemCount (Next widget) = N ∧ GetItemCount (Prev widget) = N
    ∧ (Next widget).Items = widget.Items ∧ (Prev widget).Items = widget.Items := by
  obtain ⟨hs0, hsN⟩ := hs
  have hmax : widget.maxItems = N := hcount
  have hnext : (Next widget).Selected = if s + 1 ≥ N then 0 else s + 1 := by
    unfold Next
    simp only [hsel, hmax]
    split_ifs <;> rfl
  have hprev : (Prev widget).Selected = if s - 1 < 0 then N - 1 else s - 1 := by
    unfold Prev
    simp only [hsel, hmax]
    split_ifs <;> rfl
  have hnextC : GetItemCount (Next widget) = N ∧ (Next widget).Items = widget.Items := by
    unfold Next GetItemCount
    simp only
    split_ifs <;> exact ⟨hmax, rfl⟩
  have hprevC : GetItemCount (Prev widget) = N ∧ (Prev widget).Items = widget.Items := by
    unfold Prev GetItemCount
    simp only
    split_ifs <;> exact ⟨hmax, rfl⟩
  refine ⟨?_, ?_, ?_, ?_, ?_, ?_, hnextC.1, hprevC.1, hnextC.2, hprevC.2⟩
  · rw [hnext]
    split_ifs with h
    · have : s + 1 = N := by omega
      rw [this, Int.emod_self]
    · rw [Int.emod_eq_of_lt (by omega) (by omega)]
  · rw [hprev]
    split_ifs with h
    · have : s - 1 = -1 := by omega
      rw [this, ← Int.add_emod_self, Int.emod_eq_of_lt (by omega) (by omega)]
      omega
    · rw [Int.emod_eq_of_lt (by omega) (by omega)]
  · intro h
    rw [hnext, if_pos (by omega)]
  · intro h
    rw [hprev, if_pos (by omega)]
  · intro h
    rw [hnext, if_neg (by omega)]
  · intro h
    rw [hprev, if_neg (by omega)]

theorem next_prev_wrap_witness :
    (Next { sampleWidget with maxItems := 3, Selected := 2 }).Selected = (2 + 1) % 3
    ∧ (Prev { sampleWidget with maxItems := 3, Selected := 2 }).Selected = (2 - 1) % 3
    ∧ ((2 : Int) = 3 - 1 → (Next { sampleWidget with maxItems := 3, Selected := 2 }).Selected = 0)
    ∧ ((2 : Int) = 0 →
        (Prev { sampleWidget with maxItems := 3, Selected := 2 }).Selected = 3 - 1)
    ∧ ((2 : Int) < 3 - 1 →
        (Next { sampleWidget with maxItems := 3, Selected := 2 }).Selected = 2 + 1)
    ∧ ((0 : Int) < 2 →
        (Prev { sampleWidget with maxItems := 3, Selected := 2 }).Selected = 2 - 1)
    ∧ GetItemCount (Next { sampleWidget with maxItems := 3, Selected := 2 }) = 3
    ∧ GetItemCount (Prev { sampleWidget with maxItems := 3, Selected := 2 }) = 3
    ∧ (Next { sampleWidget with maxItems := 3, Selected := 2 }).Items
        = ({ sampleWidget with maxItems := 3, Selected := 2 } : Widget).Items
    ∧ (Prev { sampleWidget with maxItems := 3, Selected := 2 }).Items
        = ({ sampleWidget with maxItems := 3, Selected := 2 } : Widget).Items :=
  next_prev_wrap { sampleWidget with maxItems := 3, Selected := 2 } 3 2 (by decide) rfl rfl
    (by decide)

/-! ## Navigation on a non-empty view -/

theorem currentFilter_first (widget : Widget)
    (hf : widget.filters = [sdk.StatusWaiting, sdk.StatusBuilding]) (hi : widget.Idx = 0) :
    currentFilter widget = (sdk.StatusWaiting, widget) := by
  obtain ⟨filters, Idx, Selected, maxItems, Items⟩ := widget
  simp only at hf hi
  subst hf hi
  rfl

theorem NavInv_step (env : Env) (items : List sdk.WorkflowNodeJobRun) (op : NavOp)
    (widget : Widget) (h : NavInv items widget) :
    ∃ widget', op.apply env widget = some widget' ∧ NavInv items widget' := by
  obtain ⟨hf, hi, hItems, hmax, hlo, hhi⟩ := h
  cases op with
  | next =>
    refine ⟨Next widget, rfl, ?_⟩
    unfold Next
    simp only
    split_ifs with hwrap
    · exact ⟨hf, hi, hItems, hmax, by simp, Or.inl (le_refl _)⟩
    · simp only [ge_iff_le, not_le] at hwrap
      refine ⟨hf, hi, hItems, hmax, ?_, ?_⟩
      · show -1 ≤ widget.Selected + 1
        omega
      · show widget.Selected + 1 ≤ 0 ∨ widget.Selected + 1 < _
        rcases hmax with h0 | hn
        · omega
        · right
          omega
  | prev =>
    refine ⟨Prev widget, rfl, ?_⟩
    unfold Prev
    simp only
    split_ifs with hwrap
    · refine ⟨hf, hi, hItems, hmax, ?_, ?_⟩
      · show -1 ≤ widget.maxItems - 1
        omega
      · show widget.maxItems - 1 ≤ 0 ∨ widget.maxItems - 1 < _
        omega
    · simp only [not_lt] at hwrap
      refine ⟨hf, hi, hItems, hmax, ?_, ?_⟩
      · show -1 ≤ widget.Selected - 1
        omega
      · show widget.Selected - 1 ≤ 0 ∨ widget.Selected - 1 < _
        omega
  | unselect =>
    exact ⟨Unselect widget, rfl, hf, hi, hItems, hmax, le_refl _,
      Or.inl (show (-1 : Int) ≤ 0 by decide)⟩
  | render =>
    refine ⟨_, display_eq env widget, ?_⟩
    rw [currentFilter_first widget hf hi, hItems]
    exact ⟨hf, hi, hItems, Or.inr rfl, hlo, hhi⟩

/-- Every sequence of `Next`, `Prev`, `Unselect` and render passes from a new widget
returns, and where the item count it leaves is positive a selected row lies
within it. -/
theorem nav_selection_in_range_of_pos (env : Env) (client : Client) (ops : List NavOp) :
    ∃ widget, runNav env ops (NewWidget client) = some widget
      ∧ (0 < GetItemCount widget → 0 ≤ widget.Selected →
          widget.Selected < GetItemCount widget) := by
  have key : ∀ (l : List NavOp) (w : Widget), NavInv (client sdk.StatusWaiting).1 w →
      ∃ w', runNav env l w = some w' ∧ NavInv (client sdk.StatusWaiting).1 w' := by
    intro l
    induction l with
    | nil => intro w hw; exact ⟨w, rfl, hw⟩
    | cons op rest ih =>
      intro w hw
      obtain ⟨w1, h1, hinv1⟩ := NavInv_step env _ op w hw
      obtain ⟨w2, h2, hinv2⟩ := ih w1 hinv1
      refine ⟨w2, ?_, hinv2⟩
      rw [runNav, h1]
      exact h2
  have h0 : NavInv (client sdk.StatusWaiting).1 (NewWidget client) :=
    ⟨rfl, rfl, rfl, Or.inl rfl, le_refl _, Or.inl (show (-1 : Int) ≤ 0 by decide)⟩
  obtain ⟨w, hw, -, -, -, hmax, -, hhi⟩ := key ops _ h0
  refine ⟨w, hw, ?_⟩
  intro hpos _
  unfold GetItemCount at *
  omega

/-! ## Row layout -/

theorem pad_length_nat (t r : GoString) (size : Nat) (h : 3 ≤ size)
    (hr : pad t (size : Int) = some r) : r.length = size := by
  have := pad_length t r (size : Int) (by omega) hr
  omega

theorem sprintfRow_length (c col1 col2 col3 col4 col5 : GoString) :
    (sprintfRow c col1 col2 col3 col4 (utf8 "➤ " ++ col5)).length
      = (utf8 "[" ++ c ++ utf8 "]").length + (utf8 "[grey]").length
        + (rowText col1 col2 col3 col4 col5).length := by
  have e1 : utf8 " [grey]" = utf8 " " ++ utf8 "[grey]" := by decide
  unfold sprintfRow rowText
  rw [e1]
  simp only [List.length_append]
  omega

theorem rowText_length (col1 col2 col3 col4 col5 : GoString)
    (h1 : col1.length = 9) (h2 : col2.length = 27) (h3 : col3.length = 7)
    (h4 : col4.length = 40) (h5 : col5.length = 17) :
    (rowText col1 col2 col3 col4 col5).length = 109 := by
  have e1 : (utf8 " ").length = 1 := by decide
  have e2 : (utf8 "➤ ").length = 4 := by decide
  have e3 : (utf8 "\n").length = 1 := by decide
  unfold rowText
  simp only [List.length_append, h1, h2, h3, h4, h5, e1, e2, e3]

/-- C8: for a width `w ≥ 3`, `pad t w` returns a string of length exactly `w` (lengths
in bytes, as `len` counts them): the first `w - 3` bytes of `t` followed by `...` when
`t` is longer than `w`, and `t` followed by `w - len(t)` spaces otherwise.  In a column
of width 9 a value of length 50 gives its first 6 bytes and `...`, a value of length 3
gives the value and 6 spaces. -/
theorem pad_exact_width (t : GoString) (w : Int) (hw : 3 ≤ w) :
    ∃ r, pad t w = some r
      ∧ (r.length : Int) = w
      ∧ ((t.length : Int) > w → r = t.take (w - 3).toNat ++ utf8 "...")
      ∧ ((t.length : Int) ≤ w → r = t ++ List.replicate (w - (t.length : Int)).toNat 32)
      ∧ (w = 9 → t.length = 50 → r = t.take 6 ++ utf8 "...")
      ∧ (w = 9 → t.length = 3 → r = t ++ utf8 "      ") := by
  refine ⟨_, pad_eq t w hw, pad_length t _ w hw (pad_eq t w hw), ?_, ?_, ?_, ?_⟩
  · intro h
    rw [if_pos h]
  · intro h
    rw [if_neg (by omega)]
  · intro h9 h50
    subst h9
    rw [if_pos (by omega)]
    rfl
  · intro h9 h3
    subst h9
    rw [if_neg (by omega), h3]
    rfl

theorem pad_exact_width_witness :
    ∃ r, pad (List.replicate 50 120) 9 = some r
      ∧ (r.length : Int) = 9
      ∧ (((List.replicate 50 120 : GoString).length : Int) > 9 →
          r = (List.replicate 50 120 : GoString).take ((9 : Int) - 3).toNat ++ utf8 "...")
      ∧ (((List.replicate 50 120 : GoString).length : Int) ≤ 9 →
          r = (List.replicate 50 120 : GoString)
            ++ List.replicate ((9 : Int) - ((List.replicate 50 120 : GoString).length : Int)).toNat
              32)
      ∧ ((9 : Int) = 9 → (List.replicate 50 120 : GoString).length = 50 →
          r = (List.replicate 50 120 : GoString).take 6 ++ utf8 "...")
      ∧ ((9 : Int) = 9 → (List.replicate 50 120 : GoString).length = 3 →
          r = (List.replicate 50 120 : GoString) ++ utf8 "      ") :=
  pad_exact_width (List.replicate 50 120) 9 (by decide)

/-- C9: any two calls of `generateQueueJobLine` return, and the two rows have the same
length once their colour tags are left out: each row is `[c]`, column 1, a space,
`[grey]`, then columns 2, 3 and 4 each followed by a space, the arrow and a space,
column 5 and a newline, with columns of 9, 27, 7, 40 and 17 bytes, so the text without
the two tags has 109 bytes whatever the input. -/
theorem generateQueueJobLine_same_length (env : Env)
    (id₁ : Int) (parameters₁ : List sdk.Parameter) (executedJob₁ : sdk.ExecutedJob)
    (duration₁ : Int) (bookedBy₁ : sdk.Service) (status₁ : GoString)
    (id₂ : Int) (parameters₂ : List sdk.Parameter) (executedJob₂ : sdk.ExecutedJob)
    (duration₂ : Int) (bookedBy₂ : sdk.Service) (status₂ : GoString) :
    ∃ c a1 a2 a3 a4 a5 d b1 b2 b3 b4 b5,
      generateQueueJobLine env id₁ parameters₁ executedJob₁ duration₁ bookedBy₁ status₁
        = some (sprintfRow c a1 a2 a3 a4 (utf8 "➤ " ++ a5))
      ∧ generateQueueJobLine env id₂ parameters₂ executedJob₂ duration₂ bookedBy₂ status₂
        = some (sprintfRow d b1 b2 b3 b4 (utf8 "➤ " ++ b5))
      ∧ (a1.length = 9 ∧ a2.length = 27 ∧ a3.length = 7 ∧ a4.length = 40 ∧ a5.length = 17)
      ∧ (b1.length = 9 ∧ b2.length = 27 ∧ b3.length = 7 ∧ b4.length = 40 ∧ b5.length = 17)
      ∧ (sprintfRow c a1 a2 a3 a4 (utf8 "➤ " ++ a5)).length
          = (utf8 "[" ++ c ++ utf8 "]").length + (utf8 "[grey]").length
            + (rowText a1 a2 a3 a4 a5).length
      ∧ (sprintfRow d b1 b2 b3 b4 (utf8 "➤ " ++ b5)).length
          = (utf8 "[" ++ d ++ utf8 "]").length + (utf8 "[grey]").length
            + (rowText b1 b2 b3 b4 b5).length
      ∧ (rowText a1 a2 a3 a4 a5).length = (rowText b1 b2 b3 b4 b5).length
      ∧ (rowText a1 a2 a3 a4 a5).length = 109 := by
  obtain ⟨c, a1, a2, a3, a4, a5, hline₁, -, ha1, ha2, ha3, ha4, ha5⟩ :=
    generateQueueJobLine_eq env id₁ parameters₁ executedJob₁ duration₁ bookedBy₁ status₁
  obtain ⟨d, b1, b2, b3, b4, b5, hline₂, -, hb1, hb2, hb3, hb4, hb5⟩ :=
    generateQueueJobLine_eq env id₂ parameters₂ executedJob₂ duration₂ bookedBy₂ status₂
  have wa := And.intro (pad_length_nat _ _ 9 (by decide) ha1)
    (And.intro (pad_length_nat _ _ 27 (by decide) ha2)
      (And.intro (pad_length_nat _ _ 7 (by decide) ha3)
        (And.intro (pad_length_nat _ _ 40 (by decide) ha4)
          (pad_length_nat _ _ 17 (by decide) ha5))))
  have wb := And.intro (pad_length_nat _ _ 9 (by decide) hb1)
    (And.intro (pad_length_nat _ _ 27 (by decide) hb2)
      (And.intro (pad_length_nat _ _ 7 (by decide) hb3)
        (And.intro (pad_length_nat _ _ 40 (by decide) hb4)
          (pad_length_nat _ _ 17 (by decide) hb5))))
  have la := rowText_length a1 a2 a3 a4 a5 wa.1 wa.2.1 wa.2.2.1 wa.2.2.2.1 wa.2.2.2.2
  have lb := rowText_length b1 b2 b3 b4 b5 wb.1 wb.2.1 wb.2.2.1 wb.2.2.2.1 wb.2.2.2.2
  exact ⟨c, a1, a2, a3, a4, a5, d, b1, b2, b3, b4, b5, hline₁, hline₂, wa, wb,
    sprintfRow_length _ _ _ _ _ _, sprintfRow_length _ _ _ _ _ _, la.trans lb.symm, la⟩

/-- C10: column 2 of the row `generateQueueJobLine` returns is decided by three cases in
priority order: for status `Building` it is `pad` of ` workerName.workerID ` at width
27, whatever the booking service id; otherwise, for a nonzero booking service id, `pad`
of ` serviceName.serviceID ` at width 27; otherwise 27 spaces.  It sits after the colour
tag, the 9 bytes of column 1 and the text ` [grey]`. -/
theorem generateQueueJobLine_column2 (env : Env) (id : Int) (parameters : List sdk.Parameter)
    (executedJob : sdk.ExecutedJob) (duration : Int) (bookedBy : sdk.Service)
    (status : GoString) :
    ∃ c col1 col2 col3 col4 col5,
      generateQueueJobLine env id parameters executedJob duration bookedBy status
        = some (sprintfRow c col1 col2 col3 col4 (utf8 "➤ " ++ col5))
      ∧ (c = utf8 "grey" ∨ c = utf8 "red" ∨ c = utf8 "yellow")
      ∧ col1.length = 9 ∧ col2.length = 27
      ∧ (status = sdk.StatusBuilding →
          pad (utf8 " " ++ executedJob.WorkerName ++ utf8 "." ++ executedJob.WorkerID
            ++ utf8 " ") 27 = some col2)
      ∧ (status ≠ sdk.StatusBuilding → bookedBy.ID ≠ 0 →
          pad (utf8 " " ++ bookedBy.Name ++ utf8 "." ++ fmtInt bookedBy.ID ++ utf8 " ") 27
            = some col2)
      ∧ (status ≠ sdk.StatusBuilding → bookedBy.ID = 0 → col2 = List.replicate 27 32) := by
  obtain ⟨c, col1, col2, col3, col4, col5, hline, hc, h1, h2, -, -, -⟩ :=
    generateQueueJobLine_eq env id parameters executedJob duration bookedBy status
  refine ⟨c, col1, col2, col3, col4, col5, hline, hc, pad_length_nat _ _ 9 (by decide) h1,
    pad_length_nat _ _ 27 (by decide) h2, ?_, ?_, ?_⟩
  · intro hb
    rw [if_pos hb] at h2
    exact h2
  · intro hb hk
    rw [if_neg hb, if_pos hk] at h2
    exact h2
  · intro hb hk
    rw [if_neg hb, if_neg (by simpa using hk)] at h2
    have h27 : pad (utf8 "") 27 = some (List.replicate 27 32) := by decide
    rw [h27] at h2
    exact (Option.some.inj h2).symm

/-! ## Row colour and view body -/

/-- The row with the colour of lines 94-101 written out. -/
theorem generateQueueJobLine_colour_eq (env : Env) (id : Int) (parameters : List sdk.Parameter)
    (executedJob : sdk.ExecutedJob) (duration : Int) (bookedBy : sdk.Service)
    (status : GoString) :
    ∃ col1 col2 col3 col4 col5,
      generateQueueJobLine env id parameters executedJob duration bookedBy status
        = some (sprintfRow
            (if status = sdk.StatusWaiting then
              if duration > 120 * Second then utf8 "red"
              else if duration > 50 * Second then utf8 "yellow"
              else utf8 "grey"
            else utf8 "grey") col1 col2 col3 col4 (utf8 "➤ " ++ col5)) := by
  obtain ⟨row0, h0, -⟩ := pad_some (env.RoundString duration) 9 (by decide)
  obtain ⟨row2, h2, -⟩ := pad_some (getVarsInPbj (utf8 "cds.run") parameters) 7 (by decide)
  obtain ⟨row3, h3, -⟩ := pad_some (getVarsInPbj (utf8 "cds.project") parameters ++ utf8 "/"
    ++ getVarsInPbj (utf8 "cds.workflow") parameters ++ utf8 "/"
    ++ getVarsInPbj (utf8 "cds.node") parameters) 40 (by decide)
  obtain ⟨col5, h5, -⟩ :=
    pad_some (getVarsInPbj (utf8 "cds.triggered_by.username") parameters) 17 (by decide)
  obtain ⟨row1, h1, -⟩ := pad_some (if status = sdk.StatusBuilding then
      utf8 " " ++ executedJob.WorkerName ++ utf8 "." ++ executedJob.WorkerID ++ utf8 " "
    else if bookedBy.ID ≠ 0 then
      utf8 " " ++ bookedBy.Name ++ utf8 "." ++ fmtInt bookedBy.ID ++ utf8 " "
    else utf8 "") 27 (by decide)
  refine ⟨row0, row1, row2, row3, col5, ?_⟩
  unfold generateQueueJobLine
  simp only [h0, h2, h3, h5, Option.bind_eq_bind, Option.some_bind, Option.pure_def]
  split_ifs at h1 with hb hk
  · simp only [hb, if_true, h1, Option.some_bind]
  · rw [if_neg hb, if_pos hk, h1]
    rfl
  · rw [if_neg hb, if_neg hk, h1]
    rfl

/-- C11: the leading colour tag of the row `generateQueueJobLine` returns is `red` exactly
when the status is `Waiting` and the duration exceeds 120 s, `yellow` exactly when the
status is `Waiting` and the duration exceeds 50 s without exceeding 120 s, and `grey`
exactly in every other case, so for every other status and for `Waiting` up to 50 s. -/
theorem generateQueueJobLine_colour_rule (env : Env) (id : Int)
    (parameters : List sdk.Parameter) (executedJob : sdk.ExecutedJob) (duration : Int)
    (bookedBy : sdk.Service) (status : GoString) :
    ∃ c col1 col2 col3 col4 col5,
      generateQueueJobLine env id parameters executedJob duration bookedBy status
        = some (sprintfRow c col1 col2 col3 col4 (utf8 "➤ " ++ col5))
      ∧ (c = utf8 "red" ↔ status = sdk.StatusWaiting ∧ duration > 120 * Second)
      ∧ (c = utf8 "yellow" ↔
          status = sdk.StatusWaiting ∧ duration > 50 * Second ∧ duration ≤ 120 * Second)
      ∧ (c = utf8 "grey" ↔ ¬ (status = sdk.StatusWaiting ∧ duration > 50 * Second)) := by
  obtain ⟨col1, col2, col3, col4, col5, hline⟩ :=
    generateQueueJobLine_colour_eq env id parameters executedJob duration bookedBy status
  have hry : utf8 "red" ≠ utf8 "yellow" := by decide
  have hrg : utf8 "red" ≠ utf8 "grey" := by decide
  have hyg : utf8 "yellow" ≠ utf8 "grey" := by decide
  have hsec : Second = 1000000000 := rfl
  refine ⟨_, col1, col2, col3, col4, col5, hline, ?_, ?_, ?_⟩
  · split_ifs with hw h120 h50
    · exact ⟨fun _ => ⟨hw, h120⟩, fun _ => rfl⟩
    · exact ⟨fun h => absurd h hry.symm, fun h => absurd h.2 h120⟩
    · exact ⟨fun h => absurd h hrg.symm, fun h => absurd h.2 h120⟩
    · exact ⟨fun h => absurd h hrg.symm, fun h => absurd h.1 hw⟩
  · split_ifs with hw h120 h50
    · exact ⟨fun h => absurd h hry, fun h => absurd h120 (by omega)⟩
    · exact ⟨fun _ => ⟨hw, h50, by omega⟩, fun _ => rfl⟩
    · exact ⟨fun h => absurd h hyg.symm, fun h => absurd h.2.1 h50⟩
    · exact ⟨fun h => absurd h hyg.symm, fun h => absurd h.1 hw⟩
  · split_ifs with hw h120 h50
    · exact ⟨fun h => absurd h hrg, fun h => absurd ⟨hw, by omega⟩ h⟩
    · exact ⟨fun h => absurd h hyg, fun h => absurd ⟨hw, h50⟩ h⟩
    · exact ⟨fun _ h => h50 h.2, fun _ => rfl⟩
    · exact ⟨fun _ h => hw h.1, fun _ => rfl⟩

/-- The second loop of `displayQueue` returns the text it was given followed by one
tagged line per job. -/
theorem displayQueueRows_eq (env : Env) (jobs : List sdk.WorkflowNodeJobRun) :
    ∀ (idx : Nat) (content : GoString), ∃ lines : List GoString,
      List.Forall₂ (fun (p : Nat × sdk.WorkflowNodeJobRun) (line : GoString) =>
          generateQueueJobLine env p.2.ID p.2.Parameters p.2.Job (env.Since p.1 p.2.Queued)
            p.2.BookedBy p.2.Status = some line) (jobs.enumFrom idx) lines
      ∧ displayQueueRows env idx jobs content
          = some (content ++ ((lines.enumFrom idx).map
              (fun p => utf8 "[grey][\"" ++ fmtInt (p.1 : Int) ++ utf8 "\"]" ++ p.2)).flatten) := by
  induction jobs with
  | nil =>
    intro idx content
    exact ⟨[], List.Forall₂.nil, by simp [displayQueueRows]⟩
  | cons job rest ih =>
    intro idx content
    obtain ⟨c, row0, row1, row2, row3, col5, hline, -⟩ :=
      generateQueueJobLine_eq env job.ID job.Parameters job.Job (env.Since idx job.Queued)
        job.BookedBy job.Status
    obtain ⟨lines, hall, hout⟩ := ih (idx + 1)
      (content ++ (utf8 "[grey][\"" ++ fmtInt idx ++ utf8 "\"]"
        ++ sprintfRow c row0 row1 row2 row3 (utf8 "➤ " ++ col5)))
    refine ⟨sprintfRow c row0 row1 row2 row3 (utf8 "➤ " ++ col5) :: lines, ?_, ?_⟩
    · exact List.Forall₂.cons hline hall
    · rw [displayQueueRows, hline]
      simp only [Option.bind_eq_bind, Option.some_bind]
      rw [hout]
      simp [List.enumFrom_cons, List.append_assoc]

/-- C12: `displayQueue` returns, and its body is the placeholder line
` [grey]none[white]` exactly when no record of the cache has the filter's status;
otherwise it is the concatenation, in the order of the filtered view, of one line per
matching record, the line at position `i` being the text `[grey]["i"]` followed by what
`generateQueueJobLine` returns for that record, so there are as many tagged lines as
matching records. -/
theorem displayQueue_body (env : Env) (widget : Widget) (filter : GoString) :
    ∃ body widget', displayQueue env widget filter = some (body, widget')
      ∧ (body = utf8 " [grey]none[white]\n" ↔ ∀ job ∈ widget.Items, job.Status ≠ filter)
      ∧ ((∃ job ∈ widget.Items, job.Status = filter) →
          ∃ lines : List GoString,
            List.Forall₂ (fun (p : Nat × sdk.WorkflowNodeJobRun) (line : GoString) =>
                generateQueueJobLine env p.2.ID p.2.Parameters p.2.Job
                  (env.Since p.1 p.2.Queued) p.2.BookedBy p.2.Status = some line)
              (filtered widget.Items filter).enum lines
            ∧ lines.length
                = (widget.Items.filter (fun job => decide (job.Status = filter))).length
            ∧ body = (lines.enum.map
                (fun p => utf8 "[grey][\"" ++ fmtInt (p.1 : Int) ++ utf8 "\"]" ++ p.2)).flatten) := by
  obtain ⟨lines, hall, hrows⟩ := displayQueueRows_eq env (filtered widget.Items filter) 0 (utf8 "")
  have hlen : lines.length = (filtered widget.Items filter).length := by
    have := hall.length_eq
    rw [List.enumFrom_length] at this
    exact this.symm
  have hempty : (filtered widget.Items filter).length = 0 ↔
      ∀ job ∈ widget.Items, job.Status ≠ filter := by
    rw [filtered_eq_filter, List.length_eq_zero, List.filter_eq_nil_iff]
    simp
  by_cases h0 : (filtered widget.Items filter).length = 0
  · refine ⟨utf8 " [grey]none[white]\n",
      SetItemCount widget ((filtered widget.Items filter).length : Int), ?_, ?_, ?_⟩
    · unfold displayQueue
      simp only [h0, if_true]
    · exact ⟨fun _ => hempty.mp h0, fun _ => rfl⟩
    · rintro ⟨job, hjob, hstatus⟩
      exact absurd hstatus (hempty.mp h0 job hjob)
  · refine ⟨(lines.enum.map
        (fun p => utf8 "[grey][\"" ++ fmtInt (p.1 : Int) ++ utf8 "\"]" ++ p.2)).flatten,
      SetItemCount widget ((filtered widget.Items filter).length : Int), ?_, ?_, ?_⟩
    · unfold displayQueue
      simp only [h0, if_false, Option.bind_eq_bind, Option.pure_def]
      rw [hrows]
      have e0 : utf8 "" = [] := by decide
      rw [e0, List.nil_append]
      rfl
    · constructor
      · intro hbody
        exfalso
        cases lines with
        | nil => exact h0 hlen.symm
        | cons line rest =>
          have e1 : utf8 "[grey][\"" = 91 :: utf8 "grey][\"" := by decide
          have e2 : utf8 " [grey]none[white]\n" = 32 :: utf8 "[grey]none[white]\n" := by decide
          rw [e2] at hbody
          simp only [List.enum, List.enumFrom_cons, List.map_cons, List.flatten_cons, e1,
            List.cons_append] at hbody
          have := (List.cons.inj hbody).1
          exact absurd this (by decide)
      · intro hnone
        exact absurd (hempty.mpr hnone) h0
    · intro _
      refine ⟨lines, hall, ?_, rfl⟩
      rw [hlen, filtered_eq_filter]

/-! ## Opening the selected row, discarded events, the filter cursor -/

/-- C13 (failing input): the cache holds a Building job (run 7) before a Waiting job
(run 8) and the filter is `Waiting`.  After a render pass and `Next`, row 0 is selected
and the item count is 1; the row rendered with region tag 0 is the Waiting job, the first
record of the filtered view, but `openWorkflow` reads `Items[0]`, the Building job,
and opens the URL of run 7. -/
theorem openWorkflow_reads_unfiltered_cache :
    (runNav sampleEnv [NavOp.render, NavOp.next] (NewWidget mixedClient)).map
        (fun w => (w.Selected, GetItemCount w)) = some (0, 1)
    ∧ (runNav sampleEnv [NavOp.render, NavOp.next] (NewWidget mixedClient)).map
        (fun w => (currentFilter w).1) = some sdk.StatusWaiting
    ∧ (runNav sampleEnv [NavOp.render, NavOp.next] (NewWidget mixedClient)).map
        (fun w => (filtered w.Items (currentFilter w).1)[0]?)
        = some (some (runJob 2 sdk.StatusWaiting (utf8 "8")))
    ∧ (runNav sampleEnv [NavOp.render, NavOp.next] (NewWidget mixedClient)).bind
        (openWorkflowJob [utf8 "0"])
        = some (some (runJob 1 sdk.StatusBuilding (utf8 "7")))
    ∧ (runNav sampleEnv [NavOp.render, NavOp.next] (NewWidget mixedClient)).bind
        (openWorkflow (utf8 "http://ui") [utf8 "0"])
        = some (some (utf8 "http://ui/project/PRJ/workflow/build/run/7")) := by
  decide

/-- C14: an event whose declared type is not `sdk.EventRunWorkflowJob`, or whose payload
does not decode, is discarded: the callback returns the widget as it was (cache, cursors
and item count), and it does so whatever the client would answer, so no fetch result is
used. -/
theorem onEvent_discards (env : Env) (client : Client) (widget : Widget)
    (evt : sdk.WebsocketEvent)
    (h : evt.Event.EventType ≠ utf8 "sdk.EventRunWorkflowJob"
      ∨ env.Unmarshal evt.Event.Payload = none) :
    onEvent env client widget evt = some widget
    ∧ ∀ client' : Client, onEvent env client' widget evt = some widget := by
  have key : ∀ c : Client, onEvent env c widget evt = some widget := by
    intro c
    unfold onEvent
    by_cases htype : evt.Event.EventType ≠ utf8 "sdk.EventRunWorkflowJob"
    · rw [if_pos htype]
    · rw [if_neg htype]
      rcases h with h | h
      · exact absurd h htype
      · rw [h]
  exact ⟨key client, key⟩

theorem onEvent_discards_witness :
    onEvent sampleEnv sampleClient sampleWidget ⟨⟨utf8 "sdk.EventRunWorkflow", [1, 0]⟩⟩
        = some sampleWidget
    ∧ ∀ client' : Client,
        onEvent sampleEnv client' sampleWidget ⟨⟨utf8 "sdk.EventRunWorkflow", [1, 0]⟩⟩
          = some sampleWidget :=
  onEvent_discards sampleEnv sampleClient sampleWidget ⟨⟨utf8 "sdk.EventRunWorkflow", [1, 0]⟩⟩
    (Or.inl (by decide))

/-- C15: `currentFilter` is total.  For the empty filter list it returns `Waiting` and
the widget unchanged; for a non-empty list with `0 ≤ Idx < len(filters)` it returns
`filters[Idx]` and the widget unchanged; and after a call on a non-empty list `Idx`
lies in `[0, len(filters))`. -/
theorem currentFilter_in_range (widget : Widget) :
    (widget.filters = [] → currentFilter widget = (sdk.StatusWaiting, widget))
    ∧ (0 ≤ widget.Idx → widget.Idx < (widget.filters.length : Int) →
        ∃ label, widget.filters[widget.Idx.toNat]? = some label
          ∧ currentFilter widget = (label, widget))
    ∧ (widget.filters ≠ [] →
        (currentFilter widget).2.filters = widget.filters
        ∧ 0 ≤ (currentFilter widget).2.Idx
        ∧ (currentFilter widget).2.Idx < (widget.filters.length : Int)) := by
  refine ⟨?_, ?_, ?_⟩
  · intro hnil
    unfold currentFilter
    rw [if_pos (by rw [hnil]; rfl)]
  · intro h0 hlt
    have hlen : ¬ widget.filters.length = 0 := by omega
    have hin : ¬ (widget.Idx < 0 ∨ widget.Idx ≥ (widget.filters.length : Int)) := by omega
    have hnat : widget.Idx.toNat < widget.filters.length := by omega
    refine ⟨widget.filters[widget.Idx.toNat], List.getElem?_eq_getElem hnat, ?_⟩
    unfold currentFilter
    rw [if_neg hlen, dif_neg hin]
  · intro hne
    have hlen : ¬ widget.filters.length = 0 := fun h => hne (List.length_eq_zero.mp h)
    have hpos : 0 < (widget.filters.length : Int) := by omega
    unfold currentFilter
    rw [if_neg hlen]
    by_cases hout : widget.Idx < 0 ∨ widget.Idx ≥ (widget.filters.length : Int)
    · rw [dif_pos hout]
      exact ⟨rfl, le_refl _, hpos⟩
    · rw [dif_neg hout]
      refine ⟨rfl, ?_, ?_⟩
      · show 0 ≤ widget.Idx
        omega
      · show widget.Idx < _
        omega

/-! ## Title, parameter lookup, selection index -/

theorem currentFilter_SetItemCount (widget : Widget) (items : Int) :
    currentFilter (SetItemCount widget items)
      = ((currentFilter widget).1, SetItemCount (currentFilter widget).2 items) := by
  simp only [currentFilter, SetItemCount]
  split_ifs <;> rfl

/-- What a render pass returns: the title is composed after `displayQueue` has stored the
new item count. -/
theorem content_eq (env : Env) (widget : Widget) :
    ∃ body, content env widget
      = some ((env.Title ++ utf8 " - " ++ title env
            (SetItemCount (currentFilter widget).2
              ((filtered widget.Items (currentFilter widget).1).length : Int))
            (currentFilter widget).1,
          env.SigilStr ((currentFilter widget).2.filters.length : Int) (currentFilter widget).2.Idx
            env.width ++ utf8 "\n" ++ body,
          false),
        SetItemCount (currentFilter widget).2
          ((filtered widget.Items (currentFilter widget).1).length : Int)) := by
  obtain ⟨body, hbody⟩ := displayQueue_some env (currentFilter widget).2 (currentFilter widget).1
  rw [currentFilter_Items] at hbody
  refine ⟨body, ?_⟩
  unfold content
  simp only [Option.bind_eq_bind, Option.pure_def]
  rw [hbody]
  rfl

/-- C17: one render pass returns with the confirmation flag false; the item count it
records is the number of cache records whose status is the current filter label, and the
title it returns is the widget title, ` - `, then `[colour]count - label[white]` with
that same count, whatever count an earlier pass had left in the widget. -/
theorem content_title_shows_new_count (env : Env) (widget : Widget) :
    ∃ ttl body widget', content env widget = some ((ttl, body, false), widget')
      ∧ display env widget = some widget'
      ∧ GetItemCount widget'
          = ((widget.Items.filter
              (fun job => decide (job.Status = (currentFilter widget).1))).length : Int)
      ∧ ttl = env.Title ++ utf8 " - " ++ (utf8 "[" ++ env.TitleColor ++ utf8 "]"
          ++ fmtInt (GetItemCount widget') ++ utf8 " - " ++ (currentFilter widget).1
          ++ utf8 "[white]")
      ∧ ∀ stale : Int,
          (content env (SetItemCount widget stale)).map (fun r => r.1.1) = some ttl := by
  obtain ⟨body, hbody⟩ := content_eq env widget
  refine ⟨_, _, _, hbody, display_eq env widget, ?_, rfl, ?_⟩
  · show (((filtered widget.Items (currentFilter widget).1).length : Nat) : Int) = _
    rw [filtered_eq_filter]
  · intro stale
    obtain ⟨body', hbody'⟩ := content_eq env (SetItemCount widget stale)
    rw [hbody', currentFilter_SetItemCount]
    rfl

/-- C18: `getVarsInPbj` returns the value of the first parameter whose name is the key
and the empty string when no parameter has that name; hence `generateQueueJobLine`
returns a row for every parameter list, the empty one included. -/
theorem getVarsInPbj_first_match (key : GoString) (ps : List sdk.Parameter) :
    getVarsInPbj key ps
      = ((ps.find? (fun p => decide (p.Name = key))).map (fun p => p.Value)).getD (utf8 "")
    ∧ ((∀ p ∈ ps, p.Name ≠ key) → getVarsInPbj key ps = utf8 "")
    ∧ (∀ pre p post, ps = pre ++ p :: post → (∀ q ∈ pre, q.Name ≠ key) → p.Name = key →
        getVarsInPbj key ps = p.Value)
    ∧ (∀ (env : Env) (id : Int) (executedJob : sdk.ExecutedJob) (duration : Int)
        (bookedBy : sdk.Service) (status : GoString),
        (∃ line, generateQueueJobLine env id ps executedJob duration bookedBy status = some line)
        ∧ ∃ line, generateQueueJobLine env id [] executedJob duration bookedBy status
            = some line) := by
  have hfind : ∀ l : List sdk.Parameter, getVarsInPbj key l
      = ((l.find? (fun p => decide (p.Name = key))).map (fun p => p.Value)).getD (utf8 "") := by
    intro l
    induction l with
    | nil => rfl
    | cons p rest ih =>
      by_cases hp : p.Name = key
      · simp [getVarsInPbj, List.find?_cons, hp]
      · simp [getVarsInPbj, List.find?_cons, hp, ih]
  have hskip : ∀ pre rest : List sdk.Parameter, (∀ q ∈ pre, q.Name ≠ key) →
      getVarsInPbj key (pre ++ rest) = getVarsInPbj key rest := by
    intro pre rest
    induction pre with
    | nil => intro _; rfl
    | cons q qs ih =>
      intro hq
      have hne : q.Name ≠ key := hq q (List.mem_cons_self _ _)
      rw [List.cons_append, getVarsInPbj, if_neg hne]
      exact ih (fun r hr => hq r (List.mem_cons_of_mem _ hr))
  refine ⟨hfind ps, ?_, ?_, ?_⟩
  · intro hnone
    have := hskip ps [] hnone
    rw [List.append_nil] at this
    rw [this]
    rfl
  · intro pre p post hps hpre hp
    rw [hps, hskip pre (p :: post) hpre, getVarsInPbj, if_pos hp]
  · intro env id executedJob duration bookedBy status
    obtain ⟨c, a1, a2, a3, a4, a5, h, -⟩ :=
      generateQueueJobLine_eq env id ps executedJob duration bookedBy status
    obtain ⟨d, b1, b2, b3, b4, b5, h', -⟩ :=
      generateQueueJobLine_eq env id [] executedJob duration bookedBy status
    exact ⟨⟨_, h⟩, ⟨_, h'⟩⟩

/-- C19 (failing input): over an empty queue, a render pass and `Next` leave
`Selected = 0` with an empty cache, and `openWorkflow` (highlight `0`) panics on
`Items[0]`.  Likewise, with three Waiting jobs, row 2 selected and a Success event for
job 3, the cache shrinks to two records while `Selected` stays 2, and `openWorkflow`
panics on `Items[2]`. -/
theorem openWorkflow_index_out_of_range :
    (runNav sampleEnv [NavOp.render, NavOp.next] (NewWidget emptyClient)).map
        (fun w => (w.Selected, w.Items.length)) = some (0, 0)
    ∧ (runNav sampleEnv [NavOp.render, NavOp.next] (NewWidget emptyClient)).bind
        (openWorkflow (utf8 "http://ui") [utf8 "0"]) = none
    ∧ ((runNav sampleEnv [NavOp.render, NavOp.next, NavOp.next, NavOp.next]
          (NewWidget threeWaitingClient)).bind
        (fun w => onEvent sampleEnv threeWaitingClient w (jobRunEvent [3, 2]))).map
        (fun w => (w.Selected, w.Items.length)) = some (2, 2)
    ∧ ((runNav sampleEnv [NavOp.render, NavOp.next, NavOp.next, NavOp.next]
          (NewWidget threeWaitingClient)).bind
        (fun w => onEvent sampleEnv threeWaitingClient w (jobRunEvent [3, 2]))).bind
        (openWorkflow (utf8 "http://ui") [utf8 "2"]) = none := by
  decide

/-- C20: `GetSelected` is never negative: it is `Selected` when `Selected ≥ 0` and 0
when `Selected < 0`, so an unselected widget and one with row 0 selected give the same
result. -/
theorem GetSelected_nonneg (widget : Widget) :
    0 ≤ GetSelected widget
    ∧ (0 ≤ widget.Selected → GetSelected widget = widget.Selected)
    ∧ (widget.Selected < 0 → GetSelected widget = 0)
    ∧ GetSelected (Unselect widget) = 0
    ∧ GetSelected (Unselect widget) = GetSelected { widget with Selected := 0 } := by
  refine ⟨?_, ?_, ?_, rfl, rfl⟩
  · unfold GetSelected
    split_ifs <;> omega
  · intro h
    unfold GetSelected
    rw [if_neg (by omega)]
  · intro h
    unfold GetSelected
    rw [if_pos h]

/-! ## When the cache holds a single status -/

theorem filtered_eq_self (Items : List sdk.WorkflowNodeJobRun) (filter : GoString)
    (h : ∀ job ∈ Items, job.Status = filter) : filtered Items filter = Items := by
  rw [filtered_eq_filter]
  exact List.filter_eq_self.mpr (fun job hjob => by simpa using h job hjob)

/-- With a highlighted region, `openWorkflow` reads the record of the cache at index
`Selected`; this is the record of the filtered view at that index when every cached
record has the filter's status. -/
theorem openWorkflowJob_uniform (widget : Widget) (filter first : GoString)
    (rest : List GoString) (hsel : 0 ≤ widget.Selected) (hfirst : first ≠ utf8 "")
    (h : ∀ job ∈ widget.Items, job.Status = filter) :
    openWorkflowJob (first :: rest) widget
      = ((filtered widget.Items filter)[widget.Selected.toNat]?).map some := by
  rw [filtered_eq_self widget.Items filter h]
  unfold openWorkflowJob
  rw [if_pos hsel]
  simp only [index, le_refl, if_true, Int.toNat_zero, List.getElem?_cons_zero,
    Option.bind_eq_bind, Option.some_bind, hfirst, ne_eq, not_false_eq_true, hsel,
    Option.pure_def]
  cases widget.Items[widget.Selected.toNat]? <;> rfl

end cdsqueue
